import Mathlib

/-!
# Verification of the porter service/response core

A shallow embedding of the `porter` service registration, request
validation, prediction pipeline, schema rendering, and response/error
envelope code (`porter/services.py`, `porter/responses.py`,
`porter/schemas/openapi.py`), with theorems checking the repository's
specification claims against it.

Python strings are embedded as `List Char` (`PyStr`) so that the string
operations used by the source (`startswith`, `endswith`, slicing,
concatenation) are ordinary list operations.
-/

set_option autoImplicit false

namespace Porter

/-- Python strings, as lists of characters. -/
abbrev PyStr := List Char

/-- Convert a Lean string literal to an embedded Python string. -/
def pstr (s : String) : PyStr := s.data

/-- JSON-like scalar values appearing in tabular cells and predictions.
`vNull` embeds both JSON `null` and the `NaN` pandas inserts for a
missing key when a `DataFrame` is built from a list of dicts. -/
inductive Val where
  | vNull : Val
  | vInt : Int → Val
  | vStr : PyStr → Val
  | vBool : Bool → Val
  deriving DecidableEq, Repr

/-- A row of a tabular batch: an association list from column name to
cell value (one parsed JSON object of the POST body). -/
abbrev Row := List (String × Val)

/-- A tabular batch (`pandas.DataFrame` built from a list of dicts):
a list of rows in input order. -/
abbrev Frame := List Row

/-- Look a column up in one row; a missing key becomes `vNull` (pandas
fills `NaN` for keys absent from a given record). -/
def rowLookup (r : Row) (c : String) : Val :=
  match r.find? (fun p => p.1 = c) with
  | some p => p.2
  | none => Val.vNull

/-- Whether the frame has column `c` (pandas: the frame's columns are the
union of the record keys). -/
def hasCol (X : Frame) (c : String) : Bool :=
  X.any (fun r => r.any (fun p => p.1 = c))

/-- `X[c]`: select one column as a list of values in row order.
`none` embeds the `KeyError` pandas raises when `c` is not a column of
the frame. -/
def colSelect (X : Frame) (c : String) : Option (List Val) :=
  if hasCol X c then some (X.map (fun r => rowLookup r c)) else none

/-- Project one row onto the given columns, in the given column order
(pandas `X[cols]` row content; missing keys become `NaN`/`vNull`). -/
def projectRow (cols : List String) (r : Row) : Row :=
  cols.map (fun c => (c, rowLookup r c))

/-- `X[cols]`: project the frame onto the given columns. `none` embeds
the `KeyError` raised when one of `cols` is not a column of `X`. -/
def project (X : Frame) (cols : List String) : Option Frame :=
  if cols.all (fun c => hasCol X c) then some (X.map (projectRow cols)) else none

/-! ## The prediction pipeline (`PredictionService._predict`) -/

/-- One `{id, prediction}` record of the response body
(`porter/responses.py`, `make_prediction_response` /
`make_batch_prediction_response`). -/
structure PredRecord where
  id : Val
  prediction : Val
  deriving DecidableEq, Repr

/-- The `predictions` value of the assembled response body: a list of
records in batch mode, a single record in instance mode. -/
inductive Predictions where
  | batch : List PredRecord → Predictions
  | single : PredRecord → Predictions
  deriving DecidableEq, Repr

/-- `make_batch_prediction_response`: zip ids with predictions in row
order (`porter/responses.py:64-74`). -/
def make_batch_prediction_response (idValues : List Val) (preds : List Val) : Predictions :=
  Predictions.batch (List.zipWith (fun i p => ⟨i, p⟩) idValues preds)

/-- `make_prediction_response`: a single `{id, prediction}` record
(`porter/responses.py:54-61`). -/
def make_prediction_response (idValue : Val) (pred : Val) : Predictions :=
  Predictions.single ⟨idValue, pred⟩

/-- Errors that `_predict` can raise past validation: a rejected
user check (`additional_checks` raised), or pandas `KeyError` /
`IndexError` escaping from column selection / `.iloc[0]`. -/
inductive PredictErr where
  | userCheckFailed : PredictErr
  | keyError : PredictErr
  | indexError : PredictErr
  deriving DecidableEq, Repr

/-- The state of a `PredictionService` relevant to `_predict`:
`batch_prediction`, the `feature_columns` extracted from the feature
schema (`None` when no feature schema was given), the user hooks and the
model. `additionalChecks` returns `false` when the hook raises. -/
structure PredService where
  batch_prediction : Bool
  feature_columns : Option (List String)
  additional_checks : Option (Frame → Bool)
  preprocessor : Option (Frame → Frame)
  model : Frame → List Val
  postprocessor : Option (Frame → Frame → List Val → List Val)

/-- The argument `_predict` hands to `additional_checks`: the full
parsed input `X_input` (`porter/services.py:626`). -/
def checksArg (X_input : Frame) : Frame := X_input

/-- The frame handed on to preprocessing: `X_input[self.feature_columns]`
when `feature_columns` is truthy, otherwise `X_input` unchanged
(`porter/services.py:632-635`; an empty `feature_columns` list is falsy
in Python and also skips the projection). -/
def selectFeatureColumns (feature_columns : Option (List String)) (X_input : Frame) :
    Option Frame :=
  match feature_columns with
  | some cols => if cols.isEmpty then some X_input else project X_input cols
  | none => some X_input

/-- Steps 3–6 of `_predict`: project, preprocess, predict, postprocess
(`porter/services.py:632-646`). `none` embeds a `KeyError` from the
projection. -/
def pipelinePreds (svc : PredService) (X_input : Frame) : Option (List Val) :=
  match selectFeatureColumns svc.feature_columns X_input with
  | none => none
  | some X_projected =>
    let X_preprocessed :=
      match svc.preprocessor with
      | some f => f X_projected
      | none => X_projected
    let preds := svc.model X_preprocessed
    match svc.postprocessor with
    | some g => some (g X_input X_preprocessed preds)
    | none => some preds

/-- Step 2 of `_predict` as embedded here: `additional_checks(X_input)`
on the full parsed input (`porter/services.py:625-626`). -/
def runAdditionalChecks (svc : PredService) (X_input : Frame) : Except PredictErr Unit :=
  match svc.additional_checks with
  | some chk =>
    if chk (checksArg X_input) then Except.ok () else Except.error PredictErr.userCheckFailed
  | none => Except.ok ()

/-- Step 7 of `_predict`: assemble the batch or instance response
(`porter/services.py:649-654`). The instance branch reads
`X_input[_ID].iloc[0]` and `preds[0]`, so an empty column or output is
an `IndexError`. -/
def assembleResponse (svc : PredService) (X_input : Frame) (preds : List Val) :
    Except PredictErr Predictions :=
  if svc.batch_prediction then
    match colSelect X_input "id" with
    | some idValues => Except.ok (make_batch_prediction_response idValues preds)
    | none => Except.error PredictErr.keyError
  else
    match colSelect X_input "id" with
    | some idValues =>
      match idValues.head?, preds.head? with
      | some i0, some p0 => Except.ok (make_prediction_response i0 p0)
      | _, _ => Except.error PredictErr.indexError
    | none => Except.error PredictErr.keyError

/-- `PredictionService._predict` after input parsing and (optional)
schema validation (`porter/services.py:616-654`): run the user check on
the full input, project to the feature columns, preprocess, predict,
postprocess, then assemble the batch or instance response. -/
def predict (svc : PredService) (X_input : Frame) : Except PredictErr Predictions :=
  match runAdditionalChecks svc X_input with
  | Except.error e => Except.error e
  | Except.ok _ =>
    match pipelinePreds svc X_input with
    | none => Except.error PredictErr.keyError
    | some preds => assembleResponse svc X_input preds

/-! ## C1: response shape of `_predict` -/

/-- C1. For every POST prediction request whose payload passes all
enabled validation (embedded: `predict` returns a response), in batch
mode the `predictions` value contains exactly one `{id, prediction}`
record per input row, pairing the i-th input row's id with the i-th
element of the post-processed computation output in input row order
(stated under the claim's presupposition that the output has an i-th
element for every row); in instance mode it is a single record whose id
is the first input row's id and whose prediction is the first element of
the computation output. -/
theorem predict_pairs_ids_with_predictions
    (svc : PredService) (X : Frame) (ids preds : List Val) (resp : Predictions)
    (hids : colSelect X "id" = some ids)
    (hpreds : pipelinePreds svc X = some preds)
    (hok : predict svc X = Except.ok resp) :
    (svc.batch_prediction = true → ids.length ≤ preds.length →
      ∃ recs, resp = Predictions.batch recs ∧ recs.length = ids.length ∧
        ∀ i (h1 : i < ids.length) (h2 : i < preds.length) (h3 : i < recs.length),
          recs[i] = ⟨ids[i], preds[i]⟩)
    ∧ (svc.batch_prediction = false →
      ∃ i0 p0, ids.head? = some i0 ∧ preds.head? = some p0 ∧
        resp = Predictions.single ⟨i0, p0⟩) := by
  unfold predict at hok
  rcases hchk : runAdditionalChecks svc X with e | u
  · rw [hchk] at hok; cases hok
  rw [hchk, hpreds] at hok
  unfold assembleResponse at hok
  constructor
  · intro hb hlen
    rw [hb] at hok
    simp only [if_pos rfl, hids] at hok
    refine ⟨List.zipWith (fun i p => ⟨i, p⟩) ids preds, ?_, ?_, ?_⟩
    · cases hok; rfl
    · simp [List.length_zipWith, Nat.min_eq_left hlen]
    · intro i h1 h2 h3
      simp [List.getElem_zipWith]
  · intro hb
    rw [hb] at hok
    simp only [Bool.false_eq_true, if_neg, hids] at hok
    rcases h0 : ids.head? with _ | i0
    · rw [h0] at hok; rcases hp : preds.head? with _ | p0 <;> rw [hp] at hok <;> cases hok
    · rw [h0] at hok
      rcases hp : preds.head? with _ | p0
      · rw [hp] at hok; cases hok
      · rw [hp] at hok
        refine ⟨i0, p0, rfl, rfl, ?_⟩
        cases hok
        rfl

/-- A concrete batch service used to witness the C1 theorem: two input
rows, the model returns the `x` column. -/
def c1Service : PredService :=
  { batch_prediction := true
    feature_columns := none
    additional_checks := none
    preprocessor := none
    model := fun X => X.map (fun r => rowLookup r "x")
    postprocessor := none }

/-- Concrete two-row input frame for the C1 witness. -/
def c1Input : Frame :=
  [[("id", Val.vInt 1), ("x", Val.vInt 10)],
   [("id", Val.vInt 2), ("x", Val.vInt 20)]]

/-- Witness for C1 at a concrete batch request. -/
theorem predict_pairs_ids_with_predictions_witness :
    (colSelect c1Input "id" = some [Val.vInt 1, Val.vInt 2]
      ∧ pipelinePreds c1Service c1Input = some [Val.vInt 10, Val.vInt 20]
      ∧ predict c1Service c1Input =
          Except.ok (Predictions.batch [⟨Val.vInt 1, Val.vInt 10⟩, ⟨Val.vInt 2, Val.vInt 20⟩]))
    ∧ ((c1Service.batch_prediction = true →
        [Val.vInt 1, Val.vInt 2].length ≤ [Val.vInt 10, Val.vInt 20].length →
        ∃ recs, Predictions.batch [⟨Val.vInt 1, Val.vInt 10⟩, ⟨Val.vInt 2, Val.vInt 20⟩]
              = Predictions.batch recs
          ∧ recs.length = [Val.vInt 1, Val.vInt 2].length
          ∧ ∀ i (h1 : i < [Val.vInt 1, Val.vInt 2].length)
              (h2 : i < [Val.vInt 10, Val.vInt 20].length) (h3 : i < recs.length),
              recs[i] = ⟨[Val.vInt 1, Val.vInt 2][i], [Val.vInt 10, Val.vInt 20][i]⟩)
      ∧ (c1Service.batch_prediction = false →
        ∃ i0 p0, [Val.vInt 1, Val.vInt 2].head? = some i0
          ∧ [Val.vInt 10, Val.vInt 20].head? = some p0
          ∧ Predictions.batch [⟨Val.vInt 1, Val.vInt 10⟩, ⟨Val.vInt 2, Val.vInt 20⟩]
              = Predictions.single ⟨i0, p0⟩)) :=
  ⟨⟨by rfl, by rfl, by rfl⟩,
    predict_pairs_ids_with_predictions c1Service c1Input
      [Val.vInt 1, Val.vInt 2] [Val.vInt 10, Val.vInt 20]
      (Predictions.batch [⟨Val.vInt 1, Val.vInt 10⟩, ⟨Val.vInt 2, Val.vInt 20⟩])
      (by rfl) (by rfl) (by rfl)⟩

/-! ## C4: what `additional_checks` and the preprocessor see -/

/-- Declared feature columns of the C4 service (the feature schema
declares the single feature `x`). -/
def c4Cols : List String := ["x"]

/-- Input with an undeclared extra column `z` for the C4 counterexample. -/
def c4Input : Frame := [[("id", Val.vInt 1), ("x", Val.vInt 2), ("z", Val.vInt 3)]]

/-- An `additional_checks` hook that rejects any batch still carrying
the undeclared column `z`. -/
def c4Check : Frame → Bool := fun F => !(hasCol F "z")

/-- The C4 service: feature schema declaring `x`, with `c4Check` as the
user hook. -/
def c4Service : PredService :=
  { batch_prediction := true
    feature_columns := some c4Cols
    additional_checks := some c4Check
    preprocessor := none
    model := fun X => X.map (fun r => rowLookup r "x")
    postprocessor := none }

/-- Counterexample to C4: the batch handed to `additional_checks` is the
unprojected parsed input, so it still carries the undeclared column `z`
(and the request fails on a hook that rejects such batches), even though
the projected batch — which the claim says the hook receives — would
have passed the hook. -/
theorem additional_checks_sees_unprojected_input :
    hasCol (checksArg c4Input) "z" = true
    ∧ ¬ "z" ∈ c4Cols
    ∧ predict c4Service c4Input = Except.error PredictErr.userCheckFailed
    ∧ c4Check ((project c4Input c4Cols).getD []) = true :=
  ⟨rfl, by decide, rfl, rfl⟩

/-- C4 (amended). The batch handed on to the preprocessor is the parsed
input projected onto exactly the declared feature columns (when the
feature-column list is nonempty and the projection succeeds), while
`additional_checks` receives the full parsed input before projection. -/
theorem preprocessor_sees_exactly_feature_columns
    (svc : PredService) (X : Frame) (cols : List String) (Xp : Frame)
    (hfc : svc.feature_columns = some cols) (hne : cols ≠ [])
    (hp : selectFeatureColumns svc.feature_columns X = some Xp) :
    (∀ r ∈ Xp, r.map Prod.fst = cols) ∧ checksArg X = X := by
  refine ⟨?_, rfl⟩
  rw [hfc] at hp
  have hp : (if cols.isEmpty then some X else project X cols) = some Xp := hp
  rw [if_neg (by simpa using hne)] at hp
  unfold project at hp
  by_cases hall : (cols.all (fun c => hasCol X c)) = true
  · rw [if_pos hall] at hp
    have hXp : Xp = X.map (projectRow cols) := (Option.some.inj hp).symm
    intro r hr
    rw [hXp] at hr
    rcases List.mem_map.mp hr with ⟨r0, _, hr0⟩
    subst hr0
    simp only [projectRow, List.map_map]
    have hid : (Prod.fst ∘ fun c : String => (c, rowLookup r0 c)) = id := rfl
    rw [hid, List.map_id]
  · rw [if_neg hall] at hp
    cases hp

/-- Witness for the amended C4 theorem at the concrete C4 service. -/
theorem preprocessor_sees_exactly_feature_columns_witness :
    (c4Service.feature_columns = some c4Cols
      ∧ c4Cols ≠ []
      ∧ selectFeatureColumns c4Service.feature_columns c4Input = some [[("x", Val.vInt 2)]])
    ∧ ((∀ r ∈ [[("x", Val.vInt 2)]], r.map Prod.fst = c4Cols)
      ∧ checksArg c4Input = c4Input) :=
  ⟨⟨rfl, by decide, rfl⟩,
    preprocessor_sees_exactly_feature_columns c4Service c4Input c4Cols
      [[("x", Val.vInt 2)]] rfl (by decide) rfl⟩

/-! ## Service construction: endpoint, namespace, id registration -/

/-- Constructor arguments of a service relevant to endpoint/id
derivation (`BaseService.__init__`). `namespace'` is the raw
`namespace` argument before normalization. -/
structure ServiceParams where
  name : PyStr
  api_version : PyStr
  namespace' : PyStr
  action : PyStr

/-- First statement of the `BaseService.namespace` setter
(`porter/services.py:381-382`): `if value and not
value.startswith('/'): value = '/' + value`. -/
def prepend_slash (value : PyStr) : PyStr :=
  if value ≠ [] ∧ ¬ value.head? = some '/' then '/' :: value else value

/-- Second statement of the `BaseService.namespace` setter
(`porter/services.py:383-384`): `if value and value.endswith('/'):
value = value[:-1]`. -/
def strip_trailing_slash (value : PyStr) : PyStr :=
  if value ≠ [] ∧ value.getLast? = some '/' then value.dropLast else value

/-- `BaseService.namespace` setter (`porter/services.py:379-385`):
prepend `'/'` to a nonempty value not starting with `'/'`, then strip
one trailing `'/'` from a nonempty value ending with `'/'`. -/
def normalize_namespace (value : PyStr) : PyStr :=
  strip_trailing_slash (prepend_slash value)

/-- Modelled from the spec: the endpoint template
(`cn.ENDPOINT_TEMPLATE`; its defining module `porter/constants.py` in
this source tree predates `services.py` and lacks it). The spec and the
docstrings of `porter/services.py` give the final routed endpoint as
"/<namespace>/<name>/<api version>/<action>/", the normalized namespace
already carrying its leading slash. -/
def endpoint_template (nspace name api_version action : PyStr) : PyStr :=
  nspace ++ pstr "/" ++ name ++ pstr "/" ++ api_version ++ pstr "/" ++ action ++ pstr "/"

/-- `BaseService.define_endpoint` (`porter/services.py:295-300`): format
the endpoint template from the (already normalized) namespace and the
other instance attributes. -/
def define_endpoint (p : ServiceParams) : PyStr :=
  endpoint_template (normalize_namespace p.namespace') p.name p.api_version p.action

/-- `BaseService.define_id` (`porter/services.py:331-335`): the id is
the endpoint. -/
def define_id (p : ServiceParams) : PyStr := define_endpoint p

/-- The attributes a successful `BaseService` construction stores. -/
structure BaseServiceRec where
  name : PyStr
  api_version : PyStr
  namespace' : PyStr
  endpoint : PyStr
  id : PyStr
  deriving DecidableEq, Repr

/-- `BaseService.__init__` restricted to endpoint/id derivation and the
process-wide id registration (`porter/services.py:185-207` and the `id`
setter at `361-373`): derive the endpoint and id, raise `ValueError`
(leaving the id set untouched — the setter raises before `add`) on a
collision, otherwise record the id. Returns the new id set and the
outcome. -/
def construct_service (p : ServiceParams) (ids : List PyStr) :
    List PyStr × Except PyStr BaseServiceRec :=
  let ns := normalize_namespace p.namespace'
  let endpoint := endpoint_template ns p.name p.api_version p.action
  let idv := endpoint
  if idv ∈ ids then
    (ids, Except.error (pstr "The id=" ++ idv ++ pstr " has already been used. " ++
      pstr "This likely means that you tried to instantiate a service " ++
      pstr "with parameters that were already used."))
  else
    (idv :: ids,
      Except.ok { name := p.name, api_version := p.api_version, namespace' := ns,
                  endpoint := endpoint, id := idv })

/-- C2. If a service was successfully constructed and registered, then a
second construction with equal name, api_version, namespace and action
(hence equal derived endpoint and id) raises, and leaves the
process-wide id-registration set exactly as it was. -/
theorem duplicate_id_construction_fails
    (ids ids1 : List PyStr) (p1 p2 : ServiceParams) (s1 : BaseServiceRec)
    (h1 : construct_service p1 ids = (ids1, Except.ok s1))
    (hname : p2.name = p1.name) (hver : p2.api_version = p1.api_version)
    (hns : p2.namespace' = p1.namespace') (hact : p2.action = p1.action) :
    define_id p2 = define_id p1
    ∧ (∃ msg, (construct_service p2 ids1).2 = Except.error msg)
    ∧ (construct_service p2 ids1).1 = ids1 := by
  have hep : define_endpoint p2 = define_endpoint p1 := by
    unfold define_endpoint
    rw [hname, hver, hns, hact]
  refine ⟨hep, ?_⟩
  unfold construct_service at h1 ⊢
  by_cases hmem : define_endpoint p1 ∈ ids
  · rw [if_pos (by simpa [define_endpoint] using hmem)] at h1
    cases h1
  · rw [if_neg (by simpa [define_endpoint] using hmem)] at h1
    have hids1 : ids1 = define_endpoint p1 :: ids := by
      have := congrArg Prod.fst h1
      simpa [define_endpoint] using this.symm
    have hmem2 : define_endpoint p2 ∈ ids1 := by
      rw [hids1, hep]; exact List.mem_cons_self _ _
    rw [if_pos (by simpa [define_endpoint] using hmem2)]
    exact ⟨⟨_, rfl⟩, rfl⟩

/-- Witness for C2: two identically parameterized services; the second
construction fails and the id set is unchanged. -/
theorem duplicate_id_construction_fails_witness :
    construct_service ⟨pstr "m", pstr "v1", pstr "ns", pstr "prediction"⟩ [] =
      ([pstr "/ns/m/v1/prediction/"],
        Except.ok ⟨pstr "m", pstr "v1", pstr "/ns", pstr "/ns/m/v1/prediction/",
          pstr "/ns/m/v1/prediction/"⟩)
    ∧ (define_id ⟨pstr "m", pstr "v1", pstr "ns", pstr "prediction"⟩ =
          define_id ⟨pstr "m", pstr "v1", pstr "ns", pstr "prediction"⟩
      ∧ (∃ msg, (construct_service ⟨pstr "m", pstr "v1", pstr "ns", pstr "prediction"⟩
            [pstr "/ns/m/v1/prediction/"]).2 = Except.error msg)
      ∧ (construct_service ⟨pstr "m", pstr "v1", pstr "ns", pstr "prediction"⟩
            [pstr "/ns/m/v1/prediction/"]).1 = [pstr "/ns/m/v1/prediction/"]) :=
  ⟨by rfl,
    duplicate_id_construction_fails [] [pstr "/ns/m/v1/prediction/"]
      ⟨pstr "m", pstr "v1", pstr "ns", pstr "prediction"⟩
      ⟨pstr "m", pstr "v1", pstr "ns", pstr "prediction"⟩
      ⟨pstr "m", pstr "v1", pstr "/ns", pstr "/ns/m/v1/prediction/", pstr "/ns/m/v1/prediction/"⟩
      (by rfl) rfl rfl rfl rfl⟩

/-! ## C9: namespace normalization -/

/-- Counterexample to C9: the nonempty input `"/"` normalizes to `""`,
which does not start with `'/'`; the input `"//"` normalizes to `"/"`,
which still ends with `'/'`; and normalization is not idempotent on the
stored value `"/"`. -/
theorem namespace_normalization_counterexample :
    normalize_namespace (pstr "/") = pstr ""
    ∧ pstr "/" ≠ pstr ""
    ∧ ¬ (normalize_namespace (pstr "/")).head? = some '/'
    ∧ normalize_namespace (pstr "//") = pstr "/"
    ∧ (normalize_namespace (pstr "//")).getLast? = some '/'
    ∧ normalize_namespace (normalize_namespace (pstr "//"))
        ≠ normalize_namespace (pstr "//") := by
  decide

/-- C9 (amended). For a nonempty raw namespace that neither starts nor
ends with `'/'`, normalization prepends exactly one `'/'`; the stored
value starts with `'/'`, does not end with `'/'`, is a fixed point of
the normalization, and the four spellings `ns`, `/ns`, `ns/`, `/ns/`
all store the same value and hence derive the same endpoint and id (the
degenerate all-slash inputs `"/"`, `"//"`, … are excluded, as the
counterexample shows the original claim fails there). -/
theorem namespace_normalization_amended (s : PyStr)
    (hne : s ≠ []) (hs : ¬ s.head? = some '/') (he : ¬ s.getLast? = some '/') :
    normalize_namespace s = '/' :: s
    ∧ normalize_namespace ('/' :: s) = '/' :: s
    ∧ normalize_namespace (s ++ ['/']) = '/' :: s
    ∧ normalize_namespace ('/' :: s ++ ['/']) = '/' :: s
    ∧ normalize_namespace (normalize_namespace s) = normalize_namespace s
    ∧ ∀ nm ver act : PyStr,
        (define_endpoint ⟨nm, ver, s, act⟩ = define_endpoint ⟨nm, ver, '/' :: s, act⟩
          ∧ define_endpoint ⟨nm, ver, s ++ ['/'], act⟩ = define_endpoint ⟨nm, ver, '/' :: s, act⟩
          ∧ define_endpoint ⟨nm, ver, '/' :: s ++ ['/'], act⟩
              = define_endpoint ⟨nm, ver, '/' :: s, act⟩)
        ∧ (define_id ⟨nm, ver, s, act⟩ = define_id ⟨nm, ver, '/' :: s, act⟩
          ∧ define_id ⟨nm, ver, s ++ ['/'], act⟩ = define_id ⟨nm, ver, '/' :: s, act⟩
          ∧ define_id ⟨nm, ver, '/' :: s ++ ['/'], act⟩ = define_id ⟨nm, ver, '/' :: s, act⟩) := by
  have hlast : ('/' :: s).getLast? = s.getLast? := by
    rcases s with _ | ⟨a, t⟩
    · exact absurd rfl hne
    · exact List.getLast?_cons_cons ..
  have hstrip : strip_trailing_slash ('/' :: s) = '/' :: s := by
    unfold strip_trailing_slash
    rw [if_neg]
    intro hcontra
    exact he (hlast ▸ hcontra.2)
  have hsplit : ('/' :: (s ++ ['/'])) = ('/' :: s) ++ ['/'] := by simp
  have hstrip2 : strip_trailing_slash ('/' :: (s ++ ['/'])) = '/' :: s := by
    unfold strip_trailing_slash
    rw [if_pos ⟨by simp, by rw [hsplit, List.getLast?_concat]⟩, hsplit, List.dropLast_concat]
  have h1 : normalize_namespace s = '/' :: s := by
    unfold normalize_namespace
    rw [show prepend_slash s = '/' :: s by unfold prepend_slash; rw [if_pos ⟨hne, hs⟩], hstrip]
  have h2 : normalize_namespace ('/' :: s) = '/' :: s := by
    unfold normalize_namespace
    rw [show prepend_slash ('/' :: s) = '/' :: s by
      unfold prepend_slash; rw [if_neg (fun hcontra => hcontra.2 rfl)], hstrip]
  have hheads : (s ++ ['/']).head? = s.head? := by
    rcases s with _ | ⟨a, t⟩
    · exact absurd rfl hne
    · rfl
  have h3 : normalize_namespace (s ++ ['/']) = '/' :: s := by
    unfold normalize_namespace
    rw [show prepend_slash (s ++ ['/']) = '/' :: (s ++ ['/']) by
      unfold prepend_slash; rw [if_pos ⟨by simp, fun hcontra => hs (hheads ▸ hcontra)⟩], hstrip2]
  have h4 : normalize_namespace ('/' :: s ++ ['/']) = '/' :: s := by
    unfold normalize_namespace
    rw [show prepend_slash ('/' :: s ++ ['/']) = '/' :: (s ++ ['/']) by
      unfold prepend_slash
      rw [if_neg (fun hcontra => hcontra.2 rfl)]
      exact hsplit.symm, hstrip2]
  refine ⟨h1, h2, h3, h4, by rw [h1, h2], ?_⟩
  intro nm ver act
  constructor
  · exact ⟨by unfold define_endpoint; rw [show (⟨nm, ver, s, act⟩ : ServiceParams).namespace' = s
        from rfl, show (⟨nm, ver, '/' :: s, act⟩ : ServiceParams).namespace' = '/' :: s from rfl,
        h1, h2],
      by unfold define_endpoint; rw [show (⟨nm, ver, s ++ ['/'], act⟩ :
        ServiceParams).namespace' = s ++ ['/'] from rfl, show (⟨nm, ver, '/' :: s, act⟩ :
        ServiceParams).namespace' = '/' :: s from rfl, h3, h2],
      by unfold define_endpoint; rw [show (⟨nm, ver, '/' :: s ++ ['/'], act⟩ :
        ServiceParams).namespace' = '/' :: s ++ ['/'] from rfl, show (⟨nm, ver, '/' :: s, act⟩ :
        ServiceParams).namespace' = '/' :: s from rfl, h4, h2]⟩
  · exact ⟨by unfold define_id define_endpoint; rw [show (⟨nm, ver, s, act⟩ :
        ServiceParams).namespace' = s from rfl, show (⟨nm, ver, '/' :: s, act⟩ :
        ServiceParams).namespace' = '/' :: s from rfl, h1, h2],
      by unfold define_id define_endpoint; rw [show (⟨nm, ver, s ++ ['/'], act⟩ :
        ServiceParams).namespace' = s ++ ['/'] from rfl, show (⟨nm, ver, '/' :: s, act⟩ :
        ServiceParams).namespace' = '/' :: s from rfl, h3, h2],
      by unfold define_id define_endpoint; rw [show (⟨nm, ver, '/' :: s ++ ['/'], act⟩ :
        ServiceParams).namespace' = '/' :: s ++ ['/'] from rfl, show (⟨nm, ver, '/' :: s, act⟩ :
        ServiceParams).namespace' = '/' :: s from rfl, h4, h2]⟩

/-- Witness for the amended C9 theorem at `s = "ns"`. -/
theorem namespace_normalization_amended_witness :
    (pstr "ns" ≠ [] ∧ ¬ (pstr "ns").head? = some '/' ∧ ¬ (pstr "ns").getLast? = some '/')
    ∧ normalize_namespace (pstr "ns") = '/' :: pstr "ns" :=
  ⟨⟨by decide, by decide, by decide⟩,
    (namespace_normalization_amended (pstr "ns") (by decide) (by decide) (by decide)).1⟩

/-! ## C5: exceptions of the invocation wrapper `BaseService.__call__`
(the wrapper itself is embedded further below, after the validator
machinery it needs) -/

/-- An exception escaping the `try` body of `__call__` (`serve()` plus
envelope conversion and `jsonify`): either a recognized
`werkzeug.exceptions.HTTPException` (status code plus description) or
any other Python exception (identified here by a tag). -/
inductive PyExc where
  | httpException (code : Nat) (description : PyStr) : PyExc
  | otherException (tag : PyStr) : PyExc
  deriving DecidableEq, Repr

/-- The werkzeug error the `except` clauses re-raise: status code,
description, and its `__cause__` chain (`raise ... from ...`). -/
structure RaisedError where
  code : Nat
  description : PyStr
  cause : Option PyExc
  deriving DecidableEq, Repr

/-- The fixed caller-safe message of the wrapped
`werkzeug_exc.InternalServerError` (`porter/services.py:274`). -/
def could_not_serve_message : PyStr := pstr "Could not serve model results successfully."

/-! ## Health checks (`make_alive_response` / `make_ready_response`) -/

/-- Modelled from the spec: the canonical ready value
(`cn.HEALTH_CHECK_VALUES.IS_READY`; the `constants.py` in this source
tree predates `services.py` and lacks it). The docstring of
`PredictionService.status` in `porter/services.py` reads "Return
'READY'". Python's `is` comparison on this module-level constant is
embedded as string equality. -/
def IS_READY : PyStr := pstr "READY"

/-- Modelled from the spec: the package version string reported in
health-check bodies (`porter/__init__.py` is not in `src/`); its
concrete value is immaterial to the claims. -/
def PORTER_VERSION : PyStr := pstr "porter-version"

/-- Modelled from the spec: the deployed-on timestamp constant
(`cn.HEALTH_CHECK_VALUES.DEPLOYED_ON`, captured at import time); its
concrete value is immaterial to the claims. -/
def DEPLOYED_ON : PyStr := pstr "deployed-on"

/-- The per-service attributes `_build_app_state` reads. -/
structure ServiceState where
  id : PyStr
  name : PyStr
  api_version : PyStr
  status : PyStr
  endpoint : PyStr
  deriving DecidableEq, Repr

/-- `Response._init_model_context`: name, api_version (meta elided). -/
structure ModelContext where
  model_name : PyStr
  api_version : PyStr
  deriving DecidableEq, Repr

/-- One value of the health-check `services` dict. -/
structure ServiceHealthEntry where
  model_context : ModelContext
  status : PyStr
  endpoint : PyStr
  deriving DecidableEq, Repr

/-- Python dict assignment `d[k] = v`: overwrite in place when the key
exists, append otherwise. -/
def dictUpdate {α β : Type} [DecidableEq α] (d : List (α × β)) (k : α) (v : β) :
    List (α × β) :=
  if d.any (fun p => p.1 = k) then d.map (fun p => if p.1 = k then (k, v) else p)
  else d ++ [(k, v)]

/-- The health entry built for one service (`responses.py:134-138`). -/
def serviceEntry (s : ServiceState) : ServiceHealthEntry :=
  { model_context := ⟨s.name, s.api_version⟩, status := s.status, endpoint := s.endpoint }

/-- The `services` dict comprehension of `_build_app_state`
(`responses.py:133-140`): a dict keyed by service id. -/
def buildServicesDict (svcs : List ServiceState) : List (PyStr × ServiceHealthEntry) :=
  svcs.foldl (fun d s => dictUpdate d s.id (serviceEntry s)) []

/-- The `ModelApp` attributes the health checks read:
`app.meta` and the registered `app._services` in registration order. -/
structure ModelApp where
  meta : List (String × Val)
  services : List ServiceState

/-- The app state returned by `_build_app_state`
(`responses.py:125-141`). -/
structure AppStateBody where
  porter_version : PyStr
  deployed_on : PyStr
  app_meta : List (String × Val)
  services : List (PyStr × ServiceHealthEntry)
  deriving DecidableEq, Repr

/-- `_build_app_state` (`responses.py:125-141`). -/
def build_app_state (app : ModelApp) : AppStateBody :=
  { porter_version := PORTER_VERSION
    deployed_on := DEPLOYED_ON
    app_meta := app.meta
    services := buildServicesDict app.services }

/-- `_is_ready` (`responses.py:116-122`): the app must define services
and every service's status must be the canonical ready value (Python
`services and all_services_ready` truthiness, as a `Bool`). -/
def is_ready (appState : AppStateBody) : Bool :=
  !appState.services.isEmpty
    && appState.services.all (fun p => p.2.status = IS_READY)

/-- A health response: the app-state body and the HTTP status code. -/
structure HealthResponse where
  body : AppStateBody
  status_code : Nat
  deriving DecidableEq, Repr

/-- `make_alive_response` (`responses.py:104-106`): always 200. -/
def make_alive_response (app : ModelApp) : HealthResponse :=
  { body := build_app_state app, status_code := 200 }

/-- `make_ready_response` (`responses.py:109-113`): 200 when ready,
503 otherwise, over the same body. -/
def make_ready_response (app : ModelApp) : HealthResponse :=
  { body := build_app_state app
    status_code := if is_ready (build_app_state app) then 200 else 503 }

/-- `dictUpdate` with a fresh key appends. -/
theorem dictUpdate_of_not_mem {α β : Type} [DecidableEq α]
    (d : List (α × β)) (k : α) (v : β) (h : ∀ p ∈ d, p.1 ≠ k) :
    dictUpdate d k v = d ++ [(k, v)] := by
  have hcond : ¬ (d.any (fun p => p.1 = k) = true) := by
    simp only [List.any_eq_true, decide_eq_true_eq]
    rintro ⟨p, hp, hpk⟩
    exact h p hp hpk
  unfold dictUpdate
  rw [if_neg hcond]

/-- With pairwise distinct service ids, the health-check `services`
dict lists exactly one entry per registered service, in order. -/
theorem buildServicesDict_of_nodup :
    ∀ (svcs : List ServiceState) (d : List (PyStr × ServiceHealthEntry)),
    (∀ s ∈ svcs, ∀ p ∈ d, p.1 ≠ s.id) →
    (svcs.map (fun s => s.id)).Nodup →
    svcs.foldl (fun d s => dictUpdate d s.id (serviceEntry s)) d
      = d ++ svcs.map (fun s => (s.id, serviceEntry s))
  | [], d, _, _ => by simp
  | s :: rest, d, hdisj, hnodup => by
    have hfresh : ∀ p ∈ d, p.1 ≠ s.id := fun p hp => hdisj s (by simp) p hp
    have hstep : dictUpdate d s.id (serviceEntry s) = d ++ [(s.id, serviceEntry s)] :=
      dictUpdate_of_not_mem d s.id (serviceEntry s) hfresh
    have hcons : (s.id :: rest.map (fun s => s.id)).Nodup := by
      simpa using hnodup
    have hnodup' : (rest.map (fun s => s.id)).Nodup := (List.nodup_cons.mp hcons).2
    have hid : s.id ∉ rest.map (fun s => s.id) := (List.nodup_cons.mp hcons).1
    have hdisj' : ∀ t ∈ rest, ∀ p ∈ d ++ [(s.id, serviceEntry s)], p.1 ≠ t.id := by
      intro t ht p hp
      rcases List.mem_append.mp hp with hp | hp
      · exact hdisj t (by simp [ht]) p hp
      · have hps : p = (s.id, serviceEntry s) := by simpa using hp
        subst hps
        intro hcontra
        apply hid
        rw [show s.id = t.id from hcontra]
        exact List.mem_map_of_mem (fun s => s.id) ht
    calc List.foldl (fun d s => dictUpdate d s.id (serviceEntry s)) d (s :: rest)
        = List.foldl (fun d s => dictUpdate d s.id (serviceEntry s))
            (d ++ [(s.id, serviceEntry s)]) rest := by rw [List.foldl_cons, hstep]
      _ = (d ++ [(s.id, serviceEntry s)]) ++ rest.map (fun s => (s.id, serviceEntry s)) :=
            buildServicesDict_of_nodup rest (d ++ [(s.id, serviceEntry s)]) hdisj' hnodup'
      _ = d ++ (s :: rest).map (fun s => (s.id, serviceEntry s)) := by simp

/-- C6. Liveness always returns 200; readiness returns 503 exactly when
no service is registered or some registered service's status differs
from the canonical ready value, 200 otherwise; both are built over the
same body. Service ids are assumed pairwise distinct, as registration
enforces. -/
theorem liveness_always_200_readiness_503_iff_not_ready (app : ModelApp)
    (hnodup : (app.services.map (fun s => s.id)).Nodup) :
    (make_alive_response app).status_code = 200
    ∧ (make_ready_response app).body = (make_alive_response app).body
    ∧ ((make_ready_response app).status_code = 503 ↔
        (app.services = [] ∨ ∃ s ∈ app.services, s.status ≠ IS_READY))
    ∧ ((make_ready_response app).status_code = 200 ↔
        (app.services ≠ [] ∧ ∀ s ∈ app.services, s.status = IS_READY)) := by
  have hdict : buildServicesDict app.services
      = app.services.map (fun s => (s.id, serviceEntry s)) := by
    simpa using buildServicesDict_of_nodup app.services [] (by simp) hnodup
  have hready : is_ready (build_app_state app) = true ↔
      (app.services ≠ [] ∧ ∀ s ∈ app.services, s.status = IS_READY) := by
    unfold is_ready build_app_state
    simp only [hdict, Bool.and_eq_true, Bool.not_eq_true', List.isEmpty_eq_false, ne_eq,
      List.map_eq_nil_iff, List.all_eq_true, List.mem_map, decide_eq_true_eq]
    constructor
    · rintro ⟨hne, hall⟩
      exact ⟨hne, fun s hs => hall (s.id, serviceEntry s) ⟨s, hs, rfl⟩⟩
    · rintro ⟨hne, hall⟩
      refine ⟨hne, ?_⟩
      rintro p ⟨s, hs, rfl⟩
      exact hall s hs
  have hstat : (make_ready_response app).status_code =
      if is_ready (build_app_state app) then 200 else 503 := rfl
  refine ⟨rfl, rfl, ?_, ?_⟩
  · rw [hstat]
    by_cases h : is_ready (build_app_state app) = true
    · rw [if_pos h]
      rw [hready] at h
      constructor
      · intro hcontra; exact absurd hcontra (by decide)
      · rintro (hnil | ⟨s, hs, hstatne⟩)
        · exact absurd hnil h.1
        · exact absurd (h.2 s hs) hstatne
    · rw [if_neg h]
      rw [hready] at h
      constructor
      · intro _
        by_cases hnil : app.services = []
        · exact Or.inl hnil
        · right
          by_contra hcontra
          push_neg at hcontra
          exact h ⟨hnil, hcontra⟩
      · intro _; rfl
  · rw [hstat]
    by_cases h : is_ready (build_app_state app) = true
    · rw [if_pos h]
      rw [hready] at h
      exact ⟨fun _ => h, fun _ => rfl⟩
    · rw [if_neg h]
      rw [hready] at h
      exact ⟨fun hcontra => absurd hcontra (by decide), fun hcontra => absurd hcontra h⟩

/-- Witness for C6 at a one-service app whose service is ready. -/
theorem liveness_always_200_readiness_503_iff_not_ready_witness :
    ((([⟨pstr "/m/v1/prediction/", pstr "m", pstr "v1", IS_READY,
        pstr "/m/v1/prediction/"⟩] : List ServiceState).map (fun s => s.id)).Nodup)
    ∧ (make_alive_response ⟨[], [⟨pstr "/m/v1/prediction/", pstr "m", pstr "v1", IS_READY,
        pstr "/m/v1/prediction/"⟩]⟩).status_code = 200
    ∧ (make_ready_response ⟨[], [⟨pstr "/m/v1/prediction/", pstr "m", pstr "v1", IS_READY,
        pstr "/m/v1/prediction/"⟩]⟩).status_code = 200 :=
  ⟨by simp,
    (liveness_always_200_readiness_503_iff_not_ready
      ⟨[], [⟨pstr "/m/v1/prediction/", pstr "m", pstr "v1", IS_READY,
        pstr "/m/v1/prediction/"⟩]⟩ (by simp)).1,
    ((liveness_always_200_readiness_503_iff_not_ready
      ⟨[], [⟨pstr "/m/v1/prediction/", pstr "m", pstr "v1", IS_READY,
        pstr "/m/v1/prediction/"⟩]⟩ (by simp)).2.2.2).mpr
      ⟨by simp, by intro s hs; simp at hs; rw [hs]⟩⟩

/-! ## C10: `PredictionService.status` is constantly ready -/

/-- `PredictionService.status` (`porter/services.py:591-594`): "Return
'READY'. Instances of this class are always ready." — a constant
property, independent of the instance state. -/
def predictionServiceStatus (_ : PredService) : PyStr := IS_READY

/-- Membership in a Python dict after one assignment: the entry is an
old one or the assigned pair. -/
theorem mem_dictUpdate {α β : Type} [DecidableEq α]
    (d : List (α × β)) (k : α) (v : β) (p : α × β) (hp : p ∈ dictUpdate d k v) :
    p ∈ d ∨ p = (k, v) := by
  unfold dictUpdate at hp
  by_cases hc : d.any (fun q => q.1 = k) = true
  · rw [if_pos hc] at hp
    rcases List.mem_map.mp hp with ⟨q, hq, hfq⟩
    by_cases hqk : q.1 = k
    · right; rw [← hfq]; simp [hqk]
    · left; rw [← hfq]; simp [hqk]; exact hq
  · rw [if_neg hc] at hp
    rcases List.mem_append.mp hp with h | h
    · exact Or.inl h
    · right; simpa using h

/-- Every entry of the health-check services dict comes from a
registered service (or from the initial accumulator). -/
theorem mem_foldl_dictUpdate :
    ∀ (svcs : List ServiceState) (d : List (PyStr × ServiceHealthEntry))
      (p : PyStr × ServiceHealthEntry),
    p ∈ svcs.foldl (fun d s => dictUpdate d s.id (serviceEntry s)) d →
    p ∈ d ∨ ∃ s ∈ svcs, p = (s.id, serviceEntry s)
  | [], _, p, hp => Or.inl (by simpa using hp)
  | s :: rest, d, p, hp => by
    have hrec := mem_foldl_dictUpdate rest (dictUpdate d s.id (serviceEntry s)) p
      (by simpa using hp)
    rcases hrec with h | ⟨t, ht, hpt⟩
    · rcases mem_dictUpdate d s.id (serviceEntry s) p h with h' | h'
      · exact Or.inl h'
      · exact Or.inr ⟨s, by simp, h'⟩
    · exact Or.inr ⟨t, by simp [ht], hpt⟩

/-- A Python dict assignment never yields an empty dict. -/
theorem dictUpdate_ne_nil {α β : Type} [DecidableEq α]
    (d : List (α × β)) (k : α) (v : β) : dictUpdate d k v ≠ [] := by
  unfold dictUpdate
  by_cases hc : d.any (fun q => q.1 = k) = true
  · rw [if_pos hc]
    rcases d with _ | ⟨q, rest⟩
    · cases hc
    · simp
  · rw [if_neg hc]
    simp

/-- Folding dict assignments over a nonempty accumulator stays
nonempty. -/
theorem foldl_dictUpdate_ne_nil :
    ∀ (svcs : List ServiceState) (d : List (PyStr × ServiceHealthEntry)), d ≠ [] →
    svcs.foldl (fun d s => dictUpdate d s.id (serviceEntry s)) d ≠ []
  | [], _, h => h
  | s :: rest, d, h => by
    rw [List.foldl_cons]
    exact foldl_dictUpdate_ne_nil rest _ (dictUpdate_ne_nil d s.id (serviceEntry s))

/-- A nonempty service list yields a nonempty services dict. -/
theorem buildServicesDict_ne_nil (svcs : List ServiceState) (h : svcs ≠ []) :
    buildServicesDict svcs ≠ [] := by
  rcases svcs with _ | ⟨s, rest⟩
  · exact absurd rfl h
  · unfold buildServicesDict
    rw [List.foldl_cons]
    exact foldl_dictUpdate_ne_nil rest _ (dictUpdate_ne_nil [] s.id (serviceEntry s))

/-- C10. `PredictionService.status` returns the canonical ready value
for every instance in every state, and an app whose registered services
all report a `PredictionService` status (and which has at least one
service) always reports readiness with status 200. -/
theorem prediction_service_always_ready :
    (∀ svc : PredService, predictionServiceStatus svc = IS_READY)
    ∧ ∀ app : ModelApp, app.services ≠ [] →
        (∀ s ∈ app.services, ∃ svc : PredService, s.status = predictionServiceStatus svc) →
        (make_ready_response app).status_code = 200 := by
  refine ⟨fun _ => rfl, ?_⟩
  intro app hne hall
  have hstat : (make_ready_response app).status_code =
      if is_ready (build_app_state app) then 200 else 503 := rfl
  rw [hstat, if_pos]
  unfold is_ready build_app_state
  apply (Bool.and_eq_true _ _).mpr
  constructor
  · simp only [Bool.not_eq_true', List.isEmpty_eq_false, ne_eq]
    exact buildServicesDict_ne_nil app.services hne
  · simp only [List.all_eq_true, decide_eq_true_eq]
    intro p hp
    rcases mem_foldl_dictUpdate app.services [] p hp with h | ⟨s, hs, hps⟩
    · cases h
    · rcases hall s hs with ⟨svc, hsvc⟩
      rw [hps]
      exact hsvc

/-- Witness for C10 at a one-service app. -/
theorem prediction_service_always_ready_witness :
    (([⟨pstr "/p/v1/prediction/", pstr "p", pstr "v1", IS_READY, pstr "/p/v1/prediction/"⟩]
        : List ServiceState) ≠ []
      ∧ ∀ s ∈ ([⟨pstr "/p/v1/prediction/", pstr "p", pstr "v1", IS_READY,
          pstr "/p/v1/prediction/"⟩] : List ServiceState),
          ∃ svc : PredService, s.status = predictionServiceStatus svc)
    ∧ (make_ready_response ⟨[], [⟨pstr "/p/v1/prediction/", pstr "p", pstr "v1", IS_READY,
        pstr "/p/v1/prediction/"⟩]⟩).status_code = 200 :=
  ⟨⟨by simp,
    by
      intro s hs
      rw [List.mem_singleton] at hs
      subst hs
      exact ⟨⟨true, none, none, none, fun _ => [], none⟩, rfl⟩⟩,
    prediction_service_always_ready.2
      ⟨[], [⟨pstr "/p/v1/prediction/", pstr "p", pstr "v1", IS_READY,
        pstr "/p/v1/prediction/"⟩]⟩
      (by simp)
      (by
        intro s hs
        rw [List.mem_singleton] at hs
        subst hs
        exact ⟨⟨true, none, none, none, fun _ => [], none⟩, rfl⟩)⟩

/-! ## C7: request-data validation in `get_post_data` -/

/-- `ApiObject.validate` (`porter/schemas/openapi.py:62-69`): invoke the
compiled validator (`some (message, extraArgs)` embeds the
`JsonSchemaException` a `fastjsonschema` validator raises on a
violation, `none` a silent pass) and re-raise a violation as
`ValueError` with the prefixed message and the remaining args. -/
def api_object_validate {δ : Type} (validator : δ → Option (PyStr × List PyStr)) (data : δ) :
    Except (PyStr × List PyStr) Unit :=
  match validator data with
  | some (msg, rest) => Except.error (pstr "Schema validation failed: " ++ msg, rest)
  | none => Except.ok ()

/-- Errors raised by `BaseService.get_post_data`: a 422
`werkzeug_exc.UnprocessableEntity` built from the validation args, or a
re-raised `ValueError` whose message lacks the validation prefix. -/
inductive GetPostDataErr where
  | unprocessableEntity (args : List PyStr)
  | valueError (args : List PyStr)
  deriving DecidableEq, Repr

/-- `BaseService.get_post_data` (`porter/services.py:409-431`): return
the parsed payload; when `validate_request_data` is set and a POST
schema is registered, validate first and turn a prefixed
`ValueError` into a 422 `UnprocessableEntity` with the same args. -/
def get_post_data {δ : Type} (validate_request_data : Bool)
    (postSchema : Option (δ → Option (PyStr × List PyStr))) (data : δ) :
    Except GetPostDataErr δ :=
  if validate_request_data then
    match postSchema with
    | some validator =>
      match api_object_validate validator data with
      | Except.error (msg, rest) =>
        if (pstr "Schema validation failed").isPrefixOf msg then
          Except.error (GetPostDataErr.unprocessableEntity (msg :: rest))
        else
          Except.error (GetPostDataErr.valueError (msg :: rest))
      | Except.ok _ => Except.ok data
    | none => Except.ok data
  else Except.ok data

/-- C7. With validation enabled and a POST schema registered,
`get_post_data` raises a 422 unprocessable-entity error exactly when
the payload fails the compiled validator, with a message derived from
the validator's path-qualified failure message; with validation
disabled or no POST schema, the parsed payload is returned unvalidated
(for every validator). -/
theorem get_post_data_422_iff_schema_failure {δ : Type}
    (validate_request_data : Bool)
    (postSchema : Option (δ → Option (PyStr × List PyStr))) (data : δ) :
    ((validate_request_data = false ∨ postSchema = none) →
      get_post_data validate_request_data postSchema data = Except.ok data)
    ∧ (∀ validator, validate_request_data = true → postSchema = some validator →
        (validator data = none →
          get_post_data validate_request_data postSchema data = Except.ok data)
        ∧ (∀ msg rest, validator data = some (msg, rest) →
          get_post_data validate_request_data postSchema data =
            Except.error (GetPostDataErr.unprocessableEntity
              ((pstr "Schema validation failed: " ++ msg) :: rest)))) := by
  constructor
  · rintro (hflag | hsch)
    · unfold get_post_data
      rw [if_neg (by simp [hflag])]
    · unfold get_post_data
      rcases hflag : validate_request_data with _ | _
      · rfl
      · rw [hsch]
        rfl
  · intro validator hflag hsch
    subst hflag
    subst hsch
    constructor
    · intro hpass
      simp [get_post_data, api_object_validate, hpass]
    · intro msg rest hfail
      have hprefix : (pstr "Schema validation failed").isPrefixOf
          (pstr "Schema validation failed: " ++ msg) = true := by
        rw [List.isPrefixOf_iff_prefix,
          show pstr "Schema validation failed: " =
            pstr "Schema validation failed" ++ pstr ": " from rfl,
          List.append_assoc]
        exact List.prefix_append _ _
      simp [get_post_data, api_object_validate, hfail, hprefix]

/-- A concrete validator for the C7 witness: fails exactly on `0` with
a path-qualified message. -/
def c7Validator : Nat → Option (PyStr × List PyStr) :=
  fun n => if n = 0 then some (pstr "data.id must be integer", []) else none

/-- Witness for C7: a failing payload yields the 422 error with the
derived message; a passing payload is returned; disabling validation
skips the check. -/
theorem get_post_data_422_iff_schema_failure_witness :
    (get_post_data true (some c7Validator) 0 =
        Except.error (GetPostDataErr.unprocessableEntity
          [pstr "Schema validation failed: " ++ pstr "data.id must be integer"])
      ∧ get_post_data true (some c7Validator) 1 = Except.ok 1)
    ∧ get_post_data false (some c7Validator) 0 = Except.ok 0 :=
  ⟨⟨((get_post_data_422_iff_schema_failure true (some c7Validator) 0).2 c7Validator rfl rfl).2
      (pstr "data.id must be integer") [] (by rfl),
    ((get_post_data_422_iff_schema_failure true (some c7Validator) 1).2 c7Validator rfl rfl).1
      (by rfl)⟩,
    (get_post_data_422_iff_schema_failure false (some c7Validator) 0).1 (Or.inl rfl)⟩

/-! ## C8: the error-response builder -/

/-- JSON values, as appearing in rendered OpenAPI specs and request
bodies. -/
inductive OJson where
  | str (s : String) : OJson
  | num (n : Int) : OJson
  | bool (b : Bool) : OJson
  | null : OJson
  | arr (items : List OJson) : OJson
  | obj (entries : List (String × OJson)) : OJson
  deriving Repr

/-- The attributes `make_error_response` reads off a caught error:
`type(error).__name__`, the werkzeug `description` when the error has
one, `Exception.args`, `getattr(error, 'code', 500)`, and
`getattr(error, 'model_service', None)`. -/
structure RaisedServiceError where
  type_name : PyStr
  description : Option PyStr
  args : List PyStr
  code : Option Nat
  model_service : Option ModelContext

/-- Operator policy flags read by `make_error_response`. Their defaults
live in `porter/config.py`, which is not in `src/`; the default values
are modelled from the spec ("off by default except `messages`"). -/
structure ErrorConfig where
  return_message_on_error : Bool
  return_traceback_on_error : Bool
  return_user_data_on_error : Bool

/-- Modelled from the spec: the default error policy —
`messages` on, `traceback` and `user_data` off. -/
def defaultErrorConfig : ErrorConfig :=
  { return_message_on_error := true
    return_traceback_on_error := false
    return_user_data_on_error := false }

/-- The `error` object of the error envelope; an `Option` field embeds
presence/absence of the corresponding dict key. -/
structure ErrorBody where
  name : PyStr
  messages : Option (List PyStr)
  traceback : Option PyStr
  user_data : Option OJson

/-- The assembled error response: optional model context (from the
error's `model_service`, via `Response._init_payload`), the `error`
object, and the HTTP status code. -/
structure ErrorResponse where
  model_context : Option ModelContext
  error : ErrorBody
  status_code : Nat

/-- `make_error_response` (`porter/responses.py:77-101`):
always include the error's name; include `messages` (the werkzeug
description if present, else the exception args), `traceback`, and
`user_data` each exactly when its policy flag is on; status code is the
error's own `code` attribute, defaulting to 500. -/
def make_error_response (cfg : ErrorConfig) (error : RaisedServiceError)
    (tracebackText : PyStr) (requestJson : OJson) : ErrorResponse :=
  { model_context := error.model_service
    error :=
      { name := error.type_name
        messages :=
          if cfg.return_message_on_error then
            some (match error.description with
              | some d => [d]
              | none => error.args)
          else none
        traceback := if cfg.return_traceback_on_error then some tracebackText else none
        user_data := if cfg.return_user_data_on_error then some requestJson else none }
    status_code := error.code.getD 500 }

/-- C8. The error response always carries the error's name; `messages`,
`traceback` and `user_data` are present exactly when the corresponding
policy flag is enabled (`messages` on, the others off, in the default
policy); the status code is the error's own code when it defines one
and 500 otherwise. -/
theorem error_response_fields_follow_policy (cfg : ErrorConfig)
    (error : RaisedServiceError) (tracebackText : PyStr) (requestJson : OJson) :
    (make_error_response cfg error tracebackText requestJson).error.name = error.type_name
    ∧ ((make_error_response cfg error tracebackText requestJson).error.messages ≠ none ↔
        cfg.return_message_on_error = true)
    ∧ ((make_error_response cfg error tracebackText requestJson).error.traceback ≠ none ↔
        cfg.return_traceback_on_error = true)
    ∧ ((make_error_response cfg error tracebackText requestJson).error.user_data ≠ none ↔
        cfg.return_user_data_on_error = true)
    ∧ (∀ c, error.code = some c →
        (make_error_response cfg error tracebackText requestJson).status_code = c)
    ∧ (error.code = none →
        (make_error_response cfg error tracebackText requestJson).status_code = 500)
    ∧ defaultErrorConfig.return_message_on_error = true
    ∧ defaultErrorConfig.return_traceback_on_error = false
    ∧ defaultErrorConfig.return_user_data_on_error = false := by
  refine ⟨rfl, ?_, ?_, ?_, ?_, ?_, rfl, rfl, rfl⟩
  · by_cases h : cfg.return_message_on_error = true <;>
      simp [make_error_response, h]
  · by_cases h : cfg.return_traceback_on_error = true <;>
      simp [make_error_response, h]
  · by_cases h : cfg.return_user_data_on_error = true <;>
      simp [make_error_response, h]
  · intro c hc
    simp [make_error_response, hc]
  · intro hc
    simp [make_error_response, hc]

/-- Witness for C8 at a concrete 422 error under the default policy. -/
theorem error_response_fields_follow_policy_witness :
    ((⟨pstr "UnprocessableEntity", some (pstr "bad schema"), [], some 422, none⟩
        : RaisedServiceError).code = some 422
      ∧ (make_error_response defaultErrorConfig
          ⟨pstr "UnprocessableEntity", some (pstr "bad schema"), [], some 422, none⟩
          (pstr "tb") OJson.null).status_code = 422)
    ∧ (make_error_response defaultErrorConfig
        ⟨pstr "UnprocessableEntity", some (pstr "bad schema"), [], some 422, none⟩
        (pstr "tb") OJson.null).error.name = pstr "UnprocessableEntity"
    ∧ ((make_error_response defaultErrorConfig
        ⟨pstr "UnprocessableEntity", some (pstr "bad schema"), [], some 422, none⟩
        (pstr "tb") OJson.null).error.messages ≠ none ↔
          defaultErrorConfig.return_message_on_error = true)
    ∧ ((make_error_response defaultErrorConfig
        ⟨pstr "UnprocessableEntity", some (pstr "bad schema"), [], some 422, none⟩
        (pstr "tb") OJson.null).error.traceback ≠ none ↔
          defaultErrorConfig.return_traceback_on_error = true) :=
  ⟨⟨rfl,
    (error_response_fields_follow_policy defaultErrorConfig
      ⟨pstr "UnprocessableEntity", some (pstr "bad schema"), [], some 422, none⟩
      (pstr "tb") OJson.null).2.2.2.2.1 422 rfl⟩,
    (error_response_fields_follow_policy defaultErrorConfig
      ⟨pstr "UnprocessableEntity", some (pstr "bad schema"), [], some 422, none⟩
      (pstr "tb") OJson.null).1,
    (error_response_fields_follow_policy defaultErrorConfig
      ⟨pstr "UnprocessableEntity", some (pstr "bad schema"), [], some 422, none⟩
      (pstr "tb") OJson.null).2.1,
    (error_response_fields_follow_policy defaultErrorConfig
      ⟨pstr "UnprocessableEntity", some (pstr "bad schema"), [], some 422, none⟩
      (pstr "tb") OJson.null).2.2.1⟩

/-! ## C3: schema rendering and reference collection
(`porter/schemas/openapi.py`)

The runtime `_RefContext` stack is embedded by its observable
semantics: `add_ref` and `context_ignore_refs` always address the
*first* (outermost) context on the stack, so a whole rendering is
governed by one `ignore_refs` flag (that of the bottom context) and one
shared refs table (the bottom context's `schemas` dict), threaded
through the recursion. A *nested* `to_openapi` call's own context never
receives `add_ref` (it is not the bottom), so its returned refs dict —
used only when `additional_properties_type` embeds the returned tuple —
is empty. -/

/-- The shared "refs collected so far" table: an ordered dict from
reference name to rendered spec. -/
abbrev Refs := List (String × OJson)

/-- Schema nodes: the closed `ApiObject` hierarchy. Every node carries
`description`, `additional_params` and `reference_name`; `Array` adds
its item type; `Object` adds either a fixed property map with its
computed `required` list, or an additional-properties type. -/
inductive ApiObj where
  | string (description : Option String) (additional_params : List (String × OJson))
      (reference_name : Option String) : ApiObj
  | number (description : Option String) (additional_params : List (String × OJson))
      (reference_name : Option String) : ApiObj
  | integer (description : Option String) (additional_params : List (String × OJson))
      (reference_name : Option String) : ApiObj
  | boolean (description : Option String) (additional_params : List (String × OJson))
      (reference_name : Option String) : ApiObj
  | array (description : Option String) (additional_params : List (String × OJson))
      (reference_name : Option String) (item_type : ApiObj) : ApiObj
  | object (description : Option String) (additional_params : List (String × OJson))
      (reference_name : Option String) (properties : List (String × ApiObj))
      (required : List String) (additional_properties_type : Option ApiObj) : ApiObj
  deriving Repr

/-- The node's `reference_name` attribute. -/
def ApiObj.refName : ApiObj → Option String
  | ApiObj.string _ _ rn => rn
  | ApiObj.number _ _ rn => rn
  | ApiObj.integer _ _ rn => rn
  | ApiObj.boolean _ _ rn => rn
  | ApiObj.array _ _ rn _ => rn
  | ApiObj.object _ _ rn _ _ _ => rn

/-- An optional description as a JSON value (`None` jsonifies to
`null`). -/
def descrJson : Option String → OJson
  | some s => OJson.str s
  | none => OJson.null

/-- Sequential dict assignments `d.update(kvs)` / `dict(..., **kvs)`. -/
def dictUpdateMany {α β : Type} [DecidableEq α] (d : List (α × β)) (kvs : List (α × β)) :
    List (α × β) :=
  kvs.foldl (fun acc kv => dictUpdate acc kv.1 kv.2) d

/-- `dict(type=self._openapi_type_name, description=self.description,
**self.additional_params)` (`openapi.py:45`). -/
def baseSpec (typeName : String) (description : Option String)
    (additional_params : List (String × OJson)) : List (String × OJson) :=
  dictUpdateMany [("type", OJson.str typeName), ("description", descrJson description)]
    additional_params

/-- The `$ref` pointer emitted for a registered reference name
(`openapi.py:49`). -/
def refJson (name : String) : OJson :=
  OJson.obj [("$ref", OJson.str ("#/components/schemas/" ++ name))]

/-- The tail of `to_openapi` (`openapi.py:47-50`): when the node has a
reference name and the bottom context does not ignore refs, register
the spec under the name in the shared table and return a `$ref`
pointer; otherwise return the spec itself. -/
def renderWithRef (ignore_refs : Bool) (reference_name : Option String)
    (spec : List (String × OJson)) (refs : Refs) : OJson × Refs :=
  match reference_name with
  | some name =>
    if ignore_refs then (OJson.obj spec, refs)
    else (refJson name, dictUpdate refs name (OJson.obj spec))
  | none => (OJson.obj spec, refs)

mutual
/-- `ApiObject.to_openapi` (`openapi.py:37-50`) with the
`_customized_openapi` overrides of each subclass (`openapi.py:99-100`,
`135-143`), threading the bottom context's `ignore_refs` flag and
shared refs table. The `additional_properties_type` branch embeds the
full tuple a nested `to_openapi()` returns — rendered spec plus the
nested context's (always empty) refs dict — as the dict value, as the
source does. -/
def to_openapi_aux (ignore_refs : Bool) : ApiObj → Refs → OJson × Refs
  | ApiObj.string d ap rn, refs =>
    renderWithRef ignore_refs rn (baseSpec "string" d ap) refs
  | ApiObj.number d ap rn, refs =>
    renderWithRef ignore_refs rn (baseSpec "number" d ap) refs
  | ApiObj.integer d ap rn, refs =>
    renderWithRef ignore_refs rn (baseSpec "integer" d ap) refs
  | ApiObj.boolean d ap rn, refs =>
    renderWithRef ignore_refs rn (baseSpec "boolean" d ap) refs
  | ApiObj.array d ap rn item, refs =>
    let r1 := to_openapi_aux ignore_refs item refs
    renderWithRef ignore_refs rn
      (dictUpdateMany (baseSpec "array" d ap) [("items", r1.1)]) r1.2
  | ApiObj.object d ap rn props req apt, refs =>
    match apt with
    | some t =>
      let r1 := to_openapi_aux ignore_refs t refs
      renderWithRef ignore_refs rn
        (dictUpdateMany (baseSpec "object" d ap)
          [("additional_properties_type", OJson.arr [r1.1, OJson.obj []])]) r1.2
    | none =>
      let r1 := to_openapi_props ignore_refs props refs
      renderWithRef ignore_refs rn
        (dictUpdateMany (baseSpec "object" d ap)
          [("properties", OJson.obj r1.1),
           ("required", OJson.arr (req.map OJson.str))]) r1.2

/-- The property-map dict comprehension of `Object._customized_openapi`
(`openapi.py:140`), rendering each property in order. -/
def to_openapi_props (ignore_refs : Bool) :
    List (String × ApiObj) → Refs → List (String × OJson) × Refs
  | [], refs => ([], refs)
  | (n, o) :: rest, refs =>
    let r1 := to_openapi_aux ignore_refs o refs
    let r2 := to_openapi_props ignore_refs rest r1.2
    ((n, r1.1) :: r2.1, r2.2)
end

/-- A direct `ApiObject.to_openapi()` call on an empty context stack
(as at documentation time): the pushed context is the bottom, with
`ignore_refs=False` and an empty refs dict. -/
def to_openapi (o : ApiObj) : OJson × Refs := to_openapi_aux false o []

/-- The rendering `ApiObject.__init__` performs under
`with _RefContext(ignore_refs=True)` to build `self.jsonschema`
(`openapi.py:26-35`): the bottom context ignores refs everywhere. -/
def init_jsonschema (o : ApiObj) : OJson := (to_openapi_aux true o []).1

/-- The concrete referenced node for the C3 counterexample: an object
named "A" with one integer property `x`. -/
def c3Node : ApiObj :=
  ApiObj.object (some "d") [] (some "A") [("x", ApiObj.integer none [] none)] ["x"] none

/-- The fully inlined body of `c3Node`. -/
def c3Body : OJson :=
  OJson.obj
    [("type", OJson.str "object"), ("description", OJson.str "d"),
     ("properties", OJson.obj
       [("x", OJson.obj [("type", OJson.str "integer"), ("description", OJson.null)])]),
     ("required", OJson.arr [OJson.str "x"])]

/-- Counterexample to C3: the *outermost* `to_openapi()` call on a node
carrying a reference name returns a `$ref` pointer (with the body
registered once in the refs table), not the fully inlined body the
claim states; the fully inlined body is produced only by the
ignore-refs rendering of `__init__`, whose refs table is empty rather
than containing the name once. -/
theorem outermost_to_openapi_returns_pointer :
    to_openapi c3Node = (refJson "A", [("A", c3Body)])
    ∧ (to_openapi_aux true c3Node []) = (c3Body, [])
    ∧ init_jsonschema c3Node = c3Body
    ∧ refJson "A" ≠ c3Body :=
  ⟨rfl, rfl, rfl, by simp [refJson, c3Body]⟩

mutual
/-- With an enclosing ignore-refs bottom context, rendering collects no
refs at all. -/
theorem to_openapi_aux_ignore_refs_snd :
    ∀ (o : ApiObj) (refs : Refs), (to_openapi_aux true o refs).2 = refs
  | ApiObj.string _ _ rn, refs => by cases rn <;> rfl
  | ApiObj.number _ _ rn, refs => by cases rn <;> rfl
  | ApiObj.integer _ _ rn, refs => by cases rn <;> rfl
  | ApiObj.boolean _ _ rn, refs => by cases rn <;> rfl
  | ApiObj.array d ap rn item, refs => by
    have h1 := to_openapi_aux_ignore_refs_snd item refs
    cases rn <;> simpa [to_openapi_aux, renderWithRef] using h1
  | ApiObj.object d ap rn props req (some t), refs => by
    have h1 := to_openapi_aux_ignore_refs_snd t refs
    cases rn <;> simpa [to_openapi_aux, renderWithRef] using h1
  | ApiObj.object d ap rn props req none, refs => by
    have h1 := to_openapi_props_ignore_refs_snd props refs
    cases rn <;> simpa [to_openapi_aux, renderWithRef] using h1

/-- Companion of `to_openapi_aux_ignore_refs_snd` for property maps. -/
theorem to_openapi_props_ignore_refs_snd :
    ∀ (l : List (String × ApiObj)) (refs : Refs), (to_openapi_props true l refs).2 = refs
  | [], _ => rfl
  | (n, o) :: rest, refs => by
    show (to_openapi_props true rest (to_openapi_aux true o refs).2).2 = refs
    rw [to_openapi_aux_ignore_refs_snd o refs]
    exact to_openapi_props_ignore_refs_snd rest refs
end

/-- The assigned key is among the keys after a dict assignment. -/
theorem mem_keys_dictUpdate {α β : Type} [DecidableEq α] (d : List (α × β)) (k : α) (v : β) :
    k ∈ (dictUpdate d k v).map Prod.fst := by
  unfold dictUpdate
  by_cases hc : d.any (fun p => p.1 = k) = true
  · rw [if_pos hc]
    have hex : ∃ p ∈ d, p.1 = k := by
      simpa [List.any_eq_true] using hc
    rcases hex with ⟨p, hp, hpk⟩
    have hmem : (k, v) ∈ d.map (fun p => if p.1 = k then (k, v) else p) := by
      have := List.mem_map_of_mem (fun p => if p.1 = k then (k, v) else p) hp
      simpa [hpk] using this
    simpa using List.mem_map_of_mem Prod.fst hmem
  · rw [if_neg hc]
    simp

/-- Dict assignment preserves distinctness of keys. -/
theorem keys_dictUpdate_nodup {α β : Type} [DecidableEq α] (d : List (α × β)) (k : α) (v : β)
    (h : (d.map Prod.fst).Nodup) : ((dictUpdate d k v).map Prod.fst).Nodup := by
  unfold dictUpdate
  by_cases hc : d.any (fun p => p.1 = k) = true
  · rw [if_pos hc]
    have hkeys : (d.map (fun p => if p.1 = k then (k, v) else p)).map Prod.fst
        = d.map Prod.fst := by
      rw [List.map_map]
      apply List.map_congr_left
      intro p _
      by_cases hpk : p.1 = k
      · simp [hpk]
      · simp [hpk]
    rw [hkeys]
    exact h
  · rw [if_neg hc]
    have hk : k ∉ d.map Prod.fst := by
      simp only [List.any_eq_true, decide_eq_true_eq] at hc
      intro hmem
      rcases List.mem_map.mp hmem with ⟨p, hp, hpk⟩
      exact hc ⟨p, hp, hpk⟩
    rw [List.map_append, List.nodup_append]
    exact ⟨h, by simp, by
      intro a ha hb
      have : a = k := by simpa using hb
      subst this
      exact hk ha⟩

/-- `renderWithRef` preserves distinctness of refs-table keys. -/
theorem renderWithRef_keys_nodup (ig : Bool) (rn : Option String)
    (spec : List (String × OJson)) (refs : Refs)
    (h : (refs.map Prod.fst).Nodup) :
    (((renderWithRef ig rn spec refs).2).map Prod.fst).Nodup := by
  cases rn with
  | none => exact h
  | some name =>
    cases ig with
    | false => exact keys_dictUpdate_nodup refs name (OJson.obj spec) h
    | true => exact h

mutual
/-- Rendering preserves distinctness of refs-table keys. -/
theorem to_openapi_aux_keys_nodup :
    ∀ (ig : Bool) (o : ApiObj) (refs : Refs),
    (refs.map Prod.fst).Nodup → (((to_openapi_aux ig o refs).2).map Prod.fst).Nodup
  | ig, ApiObj.string d ap rn, refs, h => renderWithRef_keys_nodup ig rn (baseSpec "string" d ap) refs h
  | ig, ApiObj.number d ap rn, refs, h => renderWithRef_keys_nodup ig rn (baseSpec "number" d ap) refs h
  | ig, ApiObj.integer d ap rn, refs, h => renderWithRef_keys_nodup ig rn (baseSpec "integer" d ap) refs h
  | ig, ApiObj.boolean d ap rn, refs, h => renderWithRef_keys_nodup ig rn (baseSpec "boolean" d ap) refs h
  | ig, ApiObj.array d ap rn item, refs, h =>
    renderWithRef_keys_nodup ig rn _ _ (to_openapi_aux_keys_nodup ig item refs h)
  | ig, ApiObj.object d ap rn props req (some t), refs, h =>
    renderWithRef_keys_nodup ig rn _ _ (to_openapi_aux_keys_nodup ig t refs h)
  | ig, ApiObj.object d ap rn props req none, refs, h =>
    renderWithRef_keys_nodup ig rn _ _ (to_openapi_props_keys_nodup ig props refs h)

/-- Companion of `to_openapi_aux_keys_nodup` for property maps. -/
theorem to_openapi_props_keys_nodup :
    ∀ (ig : Bool) (l : List (String × ApiObj)) (refs : Refs),
    (refs.map Prod.fst).Nodup → (((to_openapi_props ig l refs).2).map Prod.fst).Nodup
  | _, [], _, h => h
  | ig, (n, o) :: rest, refs, h =>
    to_openapi_props_keys_nodup ig rest _ (to_openapi_aux_keys_nodup ig o refs h)
end

/-- C3 (amended). In any rendering whose bottom context has refs
enabled — the outermost direct `to_openapi()` call included — a node
carrying a reference name renders as a `$ref` pointer to the name and
registers its body in the shared refs table, exactly once when the
table's keys are distinct (as they are from the empty start); the fully
inlined body is produced only under the construction-time ignore-refs
context, which collects no refs at all. -/
theorem referenced_node_renders_as_pointer (o : ApiObj) (n : String) (refs : Refs)
    (hrn : o.refName = some n) :
    (to_openapi_aux false o refs).1 = refJson n
    ∧ n ∈ ((to_openapi_aux false o refs).2).map Prod.fst
    ∧ ((refs.map Prod.fst).Nodup →
        (((to_openapi_aux false o refs).2).map Prod.fst).count n = 1)
    ∧ (to_openapi_aux true o refs).2 = refs := by
  have hcount : ∀ (refs' : Refs) (spec : List (String × OJson)),
      (refs'.map Prod.fst).Nodup →
      ((dictUpdate refs' n (OJson.obj spec)).map Prod.fst).count n = 1 := by
    intro refs' spec hnd
    exact List.count_eq_one_of_mem (keys_dictUpdate_nodup refs' n (OJson.obj spec) hnd)
      (mem_keys_dictUpdate refs' n (OJson.obj spec))
  have h1 : (to_openapi_aux false o refs).1 = refJson n := by
    cases o with
    | string d ap rn => simp only [ApiObj.refName] at hrn; subst hrn; rfl
    | number d ap rn => simp only [ApiObj.refName] at hrn; subst hrn; rfl
    | integer d ap rn => simp only [ApiObj.refName] at hrn; subst hrn; rfl
    | boolean d ap rn => simp only [ApiObj.refName] at hrn; subst hrn; rfl
    | array d ap rn item => simp only [ApiObj.refName] at hrn; subst hrn; rfl
    | object d ap rn props req apt =>
      simp only [ApiObj.refName] at hrn; subst hrn
      rcases apt with _ | t <;> rfl
  have h2 : n ∈ ((to_openapi_aux false o refs).2).map Prod.fst := by
    cases o with
    | string d ap rn =>
      simp only [ApiObj.refName] at hrn; subst hrn
      exact mem_keys_dictUpdate refs n (OJson.obj (baseSpec "string" d ap))
    | number d ap rn =>
      simp only [ApiObj.refName] at hrn; subst hrn
      exact mem_keys_dictUpdate refs n (OJson.obj (baseSpec "number" d ap))
    | integer d ap rn =>
      simp only [ApiObj.refName] at hrn; subst hrn
      exact mem_keys_dictUpdate refs n (OJson.obj (baseSpec "integer" d ap))
    | boolean d ap rn =>
      simp only [ApiObj.refName] at hrn; subst hrn
      exact mem_keys_dictUpdate refs n (OJson.obj (baseSpec "boolean" d ap))
    | array d ap rn item =>
      simp only [ApiObj.refName] at hrn; subst hrn
      exact mem_keys_dictUpdate _ n _
    | object d ap rn props req apt =>
      simp only [ApiObj.refName] at hrn; subst hrn
      rcases apt with _ | t
      · exact mem_keys_dictUpdate _ n _
      · exact mem_keys_dictUpdate _ n _
  have h3 : (refs.map Prod.fst).Nodup →
      (((to_openapi_aux false o refs).2).map Prod.fst).count n = 1 := by
    intro hnd
    cases o with
    | string d ap rn =>
      simp only [ApiObj.refName] at hrn; subst hrn
      exact hcount refs _ hnd
    | number d ap rn =>
      simp only [ApiObj.refName] at hrn; subst hrn
      exact hcount refs _ hnd
    | integer d ap rn =>
      simp only [ApiObj.refName] at hrn; subst hrn
      exact hcount refs _ hnd
    | boolean d ap rn =>
      simp only [ApiObj.refName] at hrn; subst hrn
      exact hcount refs _ hnd
    | array d ap rn item =>
      simp only [ApiObj.refName] at hrn; subst hrn
      exact hcount _ _ (to_openapi_aux_keys_nodup false item refs hnd)
    | object d ap rn props req apt =>
      simp only [ApiObj.refName] at hrn; subst hrn
      rcases apt with _ | t
      · exact hcount _ _ (to_openapi_props_keys_nodup false props refs hnd)
      · exact hcount _ _ (to_openapi_aux_keys_nodup false t refs hnd)
  exact ⟨h1, h2, h3, to_openapi_aux_ignore_refs_snd o refs⟩

/-- Witness for the amended C3 theorem at the concrete node `c3Node`
rendered on an empty refs table. -/
theorem referenced_node_renders_as_pointer_witness :
    (c3Node.refName = some "A"
      ∧ (([] : Refs).map Prod.fst).Nodup)
    ∧ ((to_openapi_aux false c3Node []).1 = refJson "A"
      ∧ "A" ∈ ((to_openapi_aux false c3Node []).2).map Prod.fst
      ∧ (((to_openapi_aux false c3Node []).2).map Prod.fst).count "A" = 1
      ∧ (to_openapi_aux true c3Node []).2 = ([] : Refs)) :=
  ⟨⟨rfl, by simp⟩,
    (referenced_node_renders_as_pointer c3Node "A" [] rfl).1,
    (referenced_node_renders_as_pointer c3Node "A" [] rfl).2.1,
    (referenced_node_renders_as_pointer c3Node "A" [] rfl).2.2.1 (by simp),
    (referenced_node_renders_as_pointer c3Node "A" [] rfl).2.2.2⟩

/-! ## C5 (continued): the full invocation wrapper, `finally` block
included -/

/-- The jsonified response a successful `try` body of `__call__`
produces: the HTTP status code and the raw payload (the attributes the
`finally` block reads). -/
structure JsonifiedResponse (δ : Type) where
  status_code : Nat
  raw_data : δ

/-- The exception that finally escapes one invocation of the routed
wrapper. Python semantics: an exception raised inside `finally`
*replaces* the in-flight exception (which survives only as the new
one's `__context__`, elided here). -/
inductive FinalExc where
  /-- An error propagated by the `except` clauses
  (`porter/services.py:269-275`). -/
  | raised (err : RaisedError) : FinalExc
  /-- The `AttributeError` raised from the `finally` block when
  `response.status_code` is evaluated with `response = None`
  (`porter/services.py:289`). -/
  | attributeError : FinalExc
  /-- A `ValueError` escaping the `finally` block when the registered
  response schema rejects the outgoing payload
  (`porter/services.py:292`). -/
  | schemaValidationFailed (msg : PyStr) (rest : List PyStr) : FinalExc
  deriving DecidableEq, Repr

/-- Result of one invocation of the routed wrapper: the outcome, the
exceptions logged by `_log_error`, and the `(request, response)` records
logged by `_log_api_call`. -/
structure ServiceCallResult (δ : Type) where
  outcome : Except FinalExc (JsonifiedResponse δ)
  logged_errors : List PyExc
  logged_api_calls : List (δ × Option δ)

/-- `BaseService.__call__` (`porter/services.py:242-293`), `finally`
block included, as a function of the outcome of the `try` body
(`serveResult`), the two instance flags, the `(method, status_code) →
schema` lookup backing `self._response_schemas.get`, and the values the
external `api` collaborator returns for `request_method()` /
`request_json()`. The `except` clauses re-raise an `HTTPException`
unchanged and wrap any other exception as
`InternalServerError('Could not serve model results successfully.')`
chained from the original. The `finally` block then (1) logs the caught
exception, (2) if `log_api_calls`, logs the request with the response
payload or `None`, and (3) if `validate_response_data`, evaluates
`response.status_code` — an `AttributeError` on `response = None`,
replacing any in-flight exception — and validates the payload against a
registered schema, a `ValueError` replacing the pending return. -/
def service_call {δ : Type} (log_api_calls validate_response_data : Bool)
    (response_schemas : String → Nat → Option (δ → Option (PyStr × List PyStr)))
    (request_method : String) (request_json : δ)
    (serveResult : Except PyExc (JsonifiedResponse δ)) : ServiceCallResult δ :=
  let response : Option (JsonifiedResponse δ) :=
    match serveResult with
    | Except.ok r => some r
    | Except.error _ => none
  let caught_error : Option PyExc :=
    match serveResult with
    | Except.ok _ => none
    | Except.error e => some e
  let base : Except FinalExc (JsonifiedResponse δ) :=
    match serveResult with
    | Except.ok r => Except.ok r
    | Except.error (PyExc.httpException c d) =>
      Except.error (FinalExc.raised ⟨c, d, none⟩)
    | Except.error (PyExc.otherException t) =>
      Except.error (FinalExc.raised
        ⟨500, could_not_serve_message, some (PyExc.otherException t)⟩)
  { outcome :=
      if validate_response_data then
        match response with
        | none => Except.error FinalExc.attributeError
        | some r =>
          match response_schemas request_method r.status_code with
          | some validator =>
            match api_object_validate validator r.raw_data with
            | Except.error (msg, rest) =>
              Except.error (FinalExc.schemaValidationFailed msg rest)
            | Except.ok _ => base
          | none => base
      else base
    logged_errors :=
      match caught_error with
      | some e => [e]
      | none => []
    logged_api_calls :=
      if log_api_calls then [(request_json, response.map (fun r => r.raw_data))] else [] }

/-- Counterexample to C5: on a service constructed with
`validate_response_data=True`, an exception from `serve()` leaves
`response = None`, so the `finally` block's `response.status_code`
raises `AttributeError`, replacing both the re-raised 422 and the
wrapped 500 the claim asserts — neither a recognized HTTP error is
"re-raised unchanged" nor is a 500 with the fixed message and chained
cause raised (the error is still logged first). -/
theorem response_validation_replaces_raised_error :
    (service_call false true (fun _ _ => none) "POST" OJson.null
        (Except.error (PyExc.httpException 422 (pstr "bad")))).outcome
      = Except.error FinalExc.attributeError
    ∧ (service_call false true (fun _ _ => none) "POST" OJson.null
        (Except.error (PyExc.otherException (pstr "boom")))).outcome
      = Except.error FinalExc.attributeError
    ∧ (service_call false true (fun _ _ => none) "POST" OJson.null
        (Except.error (PyExc.httpException 422 (pstr "bad")))).logged_errors
      = [PyExc.httpException 422 (pstr "bad")]
    ∧ (Except.error FinalExc.attributeError
          : Except FinalExc (JsonifiedResponse OJson))
      ≠ Except.error (FinalExc.raised ⟨422, pstr "bad", none⟩)
    ∧ (Except.error FinalExc.attributeError
          : Except FinalExc (JsonifiedResponse OJson))
      ≠ Except.error (FinalExc.raised ⟨500, could_not_serve_message,
          some (PyExc.otherException (pstr "boom"))⟩) :=
  ⟨rfl, rfl, rfl,
    fun h => FinalExc.noConfusion (Except.error.inj h),
    fun h => FinalExc.noConfusion (Except.error.inj h)⟩

/-- C5 (amended). When response validation is disabled (the default),
the wrapper behaves as claimed: an exception that is not a recognized
HTTP error is logged and re-raised as a 500 internal-server error with
the fixed caller-safe message and the original only as the chained
cause, and a recognized HTTP error is logged and re-raised unchanged.
When `validate_response_data` is enabled, however, any exception from
`serve()` is replaced by the `AttributeError` the `finally` block
raises on `response.status_code` (the original is still logged). -/
theorem call_wraps_unrecognized_errors_unless_validating {δ : Type}
    (log_api_calls validate_response_data : Bool)
    (response_schemas : String → Nat → Option (δ → Option (PyStr × List PyStr)))
    (request_method : String) (request_json : δ)
    (serveResult : Except PyExc (JsonifiedResponse δ)) :
    (validate_response_data = false →
      (∀ t, serveResult = Except.error (PyExc.otherException t) →
        (service_call log_api_calls validate_response_data response_schemas
            request_method request_json serveResult).outcome
          = Except.error (FinalExc.raised
              ⟨500, could_not_serve_message, some (PyExc.otherException t)⟩)
        ∧ (service_call log_api_calls validate_response_data response_schemas
            request_method request_json serveResult).logged_errors
          = [PyExc.otherException t])
      ∧ (∀ c d, serveResult = Except.error (PyExc.httpException c d) →
        (service_call log_api_calls validate_response_data response_schemas
            request_method request_json serveResult).outcome
          = Except.error (FinalExc.raised ⟨c, d, none⟩)
        ∧ (service_call log_api_calls validate_response_data response_schemas
            request_method request_json serveResult).logged_errors
          = [PyExc.httpException c d]))
    ∧ (validate_response_data = true →
      ∀ e, serveResult = Except.error e →
        (service_call log_api_calls validate_response_data response_schemas
            request_method request_json serveResult).outcome
          = Except.error FinalExc.attributeError
        ∧ (service_call log_api_calls validate_response_data response_schemas
            request_method request_json serveResult).logged_errors
          = [e]) := by
  constructor
  · intro hv
    subst hv
    constructor
    · intro t ht
      subst ht
      exact ⟨rfl, rfl⟩
    · intro c d hcd
      subst hcd
      exact ⟨rfl, rfl⟩
  · intro hv e he
    subst hv
    subst he
    exact ⟨rfl, rfl⟩

/-- Witness for the amended C5 theorem: with validation off, a concrete
unrecognized exception is wrapped as the 500 with the fixed message and
chained cause; with validation on, a concrete 422 is replaced by the
`finally` block's `AttributeError` and still logged. -/
theorem call_wraps_unrecognized_errors_unless_validating_witness :
    ((service_call false false (fun _ _ => none) "POST" OJson.null
        (Except.error (PyExc.otherException (pstr "boom")))).outcome
      = Except.error (FinalExc.raised
          ⟨500, could_not_serve_message, some (PyExc.otherException (pstr "boom"))⟩)
      ∧ (service_call false false (fun _ _ => none) "POST" OJson.null
          (Except.error (PyExc.otherException (pstr "boom")))).logged_errors
        = [PyExc.otherException (pstr "boom")])
    ∧ ((service_call false true (fun _ _ => none) "POST" OJson.null
        (Except.error (PyExc.httpException 422 (pstr "bad")))).outcome
      = Except.error FinalExc.attributeError
      ∧ (service_call false true (fun _ _ => none) "POST" OJson.null
          (Except.error (PyExc.httpException 422 (pstr "bad")))).logged_errors
        = [PyExc.httpException 422 (pstr "bad")]) :=
  ⟨((call_wraps_unrecognized_errors_unless_validating false false (fun _ _ => none)
      "POST" OJson.null
      (Except.error (PyExc.otherException (pstr "boom")))).1 rfl).1 (pstr "boom") rfl,
    (call_wraps_unrecognized_errors_unless_validating false true (fun _ _ => none)
      "POST" OJson.null
      (Except.error (PyExc.httpException 422 (pstr "bad")))).2 rfl
      (PyExc.httpException 422 (pstr "bad")) rfl⟩

end Porter
